import Mathlib

set_option autoImplicit false

namespace KoboldSwap

/-!
Shallow embedding of `kobold-swap.py`: discovery of `*.kcpps` files in the
`configs` directory, synthesis of the llama-swap `config.yaml` mapping, and
supervision of the `llama-swap` child process.

Filesystem, platform and process effects are made explicit: a directory is
an ordered list of entries (the order models filesystem enumeration order,
which `pathlib.Path.glob` preserves), the content of `config.yaml` is
threaded as a value, and process-level actions are recorded as events.
`Path` values are represented by their final name component, since the
script only applies `.stem` to them and rebuilds every other path from the
resulting stem.
-/

/-- Directory entry as seen by one `os.scandir` level: a plain file, or a
subdirectory with its own contents.  `pathlib.Path.glob("*.kcpps")` matches
the names of files and subdirectories alike and never descends into
subdirectories. -/
inductive Entry where
  | file (name : String)
  | dir (name : String) (contents : List Entry)

/-- Name of a directory entry. -/
def Entry.name : Entry → String
  | .file n => n
  | .dir n _ => n

/-- Whether the entry is a plain file. -/
def Entry.isFile : Entry → Bool
  | .file _ => true
  | .dir _ _ => false

/-- Test applied by `configs_path.glob("*.kcpps")` to each entry name.
`fnmatch.translate("*.kcpps")` is the regex `.*\x5c.kcpps` anchored at both
ends, so a name matches exactly when it ends with `.kcpps`; `pathlib` does
not treat names starting with a dot specially (a file named `.kcpps`
matches).  The suffix test is phrased on the character lists so that it is
structurally computable. -/
def matchesKcpps (n : String) : Bool := ".kcpps".toList.isSuffixOf n.toList

/-- Result of `configs_path.glob("*.kcpps")`: the matching entry names in
enumeration order.  Only the top-level names are consulted. -/
def globKcpps (entries : List Entry) : List String :=
  (entries.map Entry.name).filter matchesKcpps

/-- Model of `find_kcpps_files`: given the state of the `configs` directory
(`none` when it does not exist), return the printed messages and the list
of discovered files.  The function prints an error and returns `[]` when
the directory is missing, prints a warning and returns `[]` when no name
matches, and otherwise returns the matches. -/
def find_kcpps_files (configs : Option (List Entry)) : List String × List String :=
  match configs with
  | none => (["Error: Configs directory 'configs' not found."], [])
  | some entries =>
      let kcpps_files := globKcpps entries
      if kcpps_files.isEmpty then
        (["Warning: No .kcpps files found in 'configs'."], [])
      else
        ([], kcpps_files)

/-- Model of `pathlib.PurePath.stem` on a name: CPython computes
`i = name.rfind(".")` and returns the slice `name[:i]` when
`0 < i < len(name) - 1`, and the whole name otherwise. -/
def stem (name : String) : String :=
  let cs := name.toList
  match cs.reverse.findIdx? (fun c => c == '.') with
  | none => name
  | some j =>
      let i := cs.length - 1 - j
      if 0 < i ∧ i < cs.length - 1 then String.mk (cs.take i) else name

/-- Model of `extract_filename`: the `.stem` of the path, i.e. the file
name without its last extension. -/
def extract_filename (file_path : String) : String := stem file_path

/-- Model of `generate_config_entry`.  The Python function returns a
one-key dict; a Python dict is an insertion-ordered association list, so
the returned dict is represented by its single key/value pair, the value
itself an ordered association list of its two scalar fields. -/
def generate_config_entry (filename : String) : String × List (String × String) :=
  ("koboldcpp/" ++ filename,
    [("cmd",
      "kcpp-extracted/koboldcpp-launcher --config configs/" ++ filename
        ++ ".kcpps --port ${PORT} --hordemodelname " ++ filename),
     ("checkEndpoint", "/ping")])

/-- Model of Python `dict.update` with a one-key dict: when the key is
already present its value is replaced in place (the key keeps its original
position), otherwise the pair is appended at the end. -/
def dictUpdate {α : Type} (m : List (String × α)) (k : String) (v : α) :
    List (String × α) :=
  if m.any (fun p => p.1 == k) then
    m.map (fun p => if p.1 == k then (p.1, v) else p)
  else
    m ++ [(k, v)]

/-- Body of the loop in `generate_config_yaml`: generate the entry for one
discovered file and merge it into `models` with `dict.update`. -/
def updateWithEntry (models : List (String × List (String × String)))
    (kcpps_file : String) : List (String × List (String × String)) :=
  let e := generate_config_entry (extract_filename kcpps_file)
  dictUpdate models e.1 e.2

/-- Accumulation loop of `generate_config_yaml`: an initially empty
`models` dict, updated with one generated entry per discovered file, in
discovery order. -/
def buildModels (kcpps_files : List String) : List (String × List (String × String)) :=
  kcpps_files.foldl updateWithEntry []

/-- Rendering of the config structure to the bytes of `config.yaml`,
modelling `yaml.dump(config, default_flow_style=False, sort_keys=False)`:
a pure function of the mapping that emits the single top-level `models`
key and then the entries in insertion order.  PyYAML's exact quoting and
line wrapping are not reproduced; the claims about the file content only
need that the bytes are a function of the mapping. -/
def yamlDump (models : List (String × List (String × String))) : String :=
  "models:\n" ++ String.join (models.map (fun kv =>
    "  " ++ kv.1 ++ ":\n" ++ String.join (kv.2.map (fun fld =>
      "    " ++ fld.1 ++ ": " ++ fld.2 ++ "\n"))))

/-- Result of `generate_config_yaml`: the returned boolean, the content of
`config.yaml` after the call, and the printed messages. -/
structure GenResult where
  success : Bool
  output : Option String
  msgs : List String

/-- Model of `generate_config_yaml`.  The file write is an effect:
`writeOk` says whether opening `config.yaml` for writing succeeds,
`writeErr` is the text of the caught exception `e` when it does not, and
`prev` is the file's content before the call (`none` when the file is
absent).  On an empty input the function returns early, before the file is
even opened; a failing write is modelled as the `open` raising, leaving
the previous content in place (the `except Exception` branch catches the
error and returns `False`). -/
def generate_config_yaml (kcpps_files : List String) (writeOk : Bool)
    (writeErr : String) (prev : Option String) : GenResult :=
  if kcpps_files.isEmpty then
    { success := false, output := prev, msgs := ["No .kcpps files to process."] }
  else
    let models := buildModels kcpps_files
    if writeOk then
      { success := true, output := some (yamlDump models),
        msgs := ["Successfully generated config.yaml"] }
    else
      { success := false, output := prev,
        msgs := ["Error writing config.yaml: " ++ writeErr] }

/-- Model of `os.path.join(basepath, nm)` with the platform's separator. -/
def osJoin (isWindows : Bool) (basepath nm : String) : String :=
  basepath ++ (if isWindows then "\x5c" else "/") ++ nm

/-- Executable path probed by `launch_llama_swap`: next to the script
(`basepath` is `os.path.abspath(os.path.dirname(__file__))`), named
`llama-swap.exe` when `platform.system() == "Windows"` and `llama-swap`
otherwise. -/
def llamaSwapExecutable (isWindows : Bool) (basepath : String) : String :=
  if isWindows then osJoin isWindows basepath "llama-swap.exe"
  else osJoin isWindows basepath "llama-swap"

/-- Model of `launch_llama_swap`: the returned process handle (represented
by the spawned executable's path) or `None`, plus the printed messages.
`exePresent` is the result of `os.path.exists` on the probed path;
`spawnOk` is whether `subprocess.Popen` succeeds, `spawnErr` the text of
the caught exception when it does not (the `except` branch also returns
`None`). -/
def launch_llama_swap (isWindows : Bool) (basepath : String)
    (exePresent spawnOk : Bool) (spawnErr : String) : Option String × List String :=
  let executable := llamaSwapExecutable isWindows basepath
  if exePresent then
    if spawnOk then
      (some executable, ["Launching " ++ executable ++ "..."])
    else
      (none, ["Launching " ++ executable ++ "...",
              "Error launching llama-swap: " ++ spawnErr])
  else
    (none, ["Warning: " ++ executable ++ " not found. Skipping llama-swap launch."])

/-- Process-level actions of a run, in the order they happen. -/
inductive Event where
  | unpackRun
  | launched
  | terminateSent
  | childExited
  | returned
deriving DecidableEq

/-- Model of the `try: wait() / except KeyboardInterrupt: ...` block of
`main`.  `interrupt` says whether a `KeyboardInterrupt` is delivered while
the first `llama_swap_process.wait()` blocks.  `Popen.wait` returns only
once the child process has exited, so each completed wait is a
`childExited` event; on interrupt the handler prints a message, calls
`terminate()` on the child and then waits again until the child has
actually exited. -/
def supervise (interrupt : Bool) : List Event × List String :=
  if interrupt then
    ([Event.terminateSent, Event.childExited], ["\nShutting down llama-swap..."])
  else
    ([Event.childExited], [])

/-- Ambient state read and written by `main`: the working directory's
`configs` folder (`none` when absent, otherwise its entries in enumeration
order), the `kcpp-extracted` marker directory, the content of
`config.yaml`, whether writing it succeeds, the platform, the script's own
directory, whether the adjacent `llama-swap` executable exists and spawns,
and whether the user interrupts the blocking wait. -/
structure World where
  configs : Option (List Entry)
  kcppExtracted : Bool
  output : Option String
  writeOk : Bool
  writeErr : String
  llamaSwapPresent : Bool
  spawnOk : Bool
  spawnErr : String
  isWindows : Bool
  basepath : String
  interrupt : Bool

/-- Outcome of one run of `main` followed by interpreter exit: the state
afterwards, the process exit status, the printed lines in order, and the
process-level events in order. -/
structure RunResult where
  world : World
  exitCode : Nat
  log : List String
  events : List Event

/-- Model of `main`, followed by the interpreter exit.  A normal return
from `main` ends the process with status 0.  `quit("")` raises
`SystemExit("")`; CPython maps a `SystemExit` whose argument is neither
`None` nor an `int` to exit status 1 after printing the argument (here the
empty string) to stderr, so the missing-`configs` early return exits with
status 1.  `sys.exit(1)` exits with status 1.  The external
`koboldcpp --unpack kcpp-extracted` call is recorded as the `unpackRun`
event; the script does not inspect its exit status. -/
def mainRun (w : World) : RunResult :=
  match w.configs with
  | none =>
      { world := { w with configs := some [] }
        exitCode := 1
        log := ["Kobold Swap",
          "Configs folder created, place your .kcpps files here.\n Make sure they are set to not show the launcher and don't launch a browser",
          ""]
        events := [] }
  | some entries =>
      let unpackEvents : List Event :=
        if w.kcppExtracted then [] else [Event.unpackRun]
      let fr := find_kcpps_files (some entries)
      if fr.2.isEmpty then
        { world := w
          exitCode := 0
          log := ["Kobold Swap"] ++ fr.1 ++ ["No .kcpps files found. Exiting."]
          events := unpackEvents ++ [Event.returned] }
      else
        let g := generate_config_yaml fr.2 w.writeOk w.writeErr w.output
        let w1 := { w with output := g.output }
        if g.success then
          let l := launch_llama_swap w.isWindows w.basepath
            w.llamaSwapPresent w.spawnOk w.spawnErr
          match l.1 with
          | none =>
              { world := w1
                exitCode := 0
                log := ["Kobold Swap"] ++ fr.1 ++ g.msgs
                  ++ ["Config generation completed successfully!"] ++ l.2
                events := unpackEvents ++ [Event.returned] }
          | some _ =>
              let s := supervise w.interrupt
              { world := w1
                exitCode := 0
                log := ["Kobold Swap"] ++ fr.1 ++ g.msgs
                  ++ ["Config generation completed successfully!"] ++ l.2
                  ++ ["llama-swap launched successfully!"] ++ s.2
                events := unpackEvents ++ [Event.launched] ++ s.1 ++ [Event.returned] }
        else
          { world := w1
            exitCode := 1
            log := ["Kobold Swap"] ++ fr.1 ++ g.msgs ++ ["Config generation failed."]
            events := unpackEvents }

/-! ### General helper lemmas -/

theorem filter_map_eq {α β : Type} (f : α → β) (p : β → Bool) (l : List α) :
    (l.map f).filter p = (l.filter fun a => p (f a)).map f := by
  induction l with
  | nil => rfl
  | cons a l ih => by_cases h : p (f a) <;> simp [h, ih]

theorem string_append_left_cancel (s a b : String) (h : s ++ a = s ++ b) : a = b := by
  have hd : s.data ++ a.data = s.data ++ b.data := by
    have hx := congrArg String.data h
    simpa [String.data_append] using hx
  exact String.ext (List.append_cancel_left hd)

theorem any_key_iff {α : Type} (m : List (String × α)) (k : String) :
    (m.any fun p => p.1 == k) = true ↔ k ∈ m.map Prod.fst := by
  simp only [List.any_eq_true, List.mem_map, beq_iff_eq]

theorem dictUpdate_not_mem {α : Type} (m : List (String × α)) (k : String) (v : α)
    (h : k ∉ m.map Prod.fst) : dictUpdate m k v = m ++ [(k, v)] := by
  unfold dictUpdate
  rw [if_neg]
  intro hany
  exact h ((any_key_iff m k).mp hany)

theorem mem_dictUpdate {α : Type} {m : List (String × α)} {k : String} {v : α}
    {x : String × α} (h : x ∈ dictUpdate m k v) : x ∈ m ∨ x = (k, v) := by
  unfold dictUpdate at h
  by_cases hc : (m.any fun p => p.1 == k) = true
  · rw [if_pos hc] at h
    rcases List.mem_map.mp h with ⟨p, hp, he⟩
    by_cases hpk : (p.1 == k) = true
    · right
      rw [if_pos hpk] at he
      rw [← he, beq_iff_eq.mp hpk]
    · left
      rw [if_neg hpk] at he
      rw [← he]
      exact hp
  · rw [if_neg hc] at h
    rcases List.mem_append.mp h with h1 | h1
    · left; exact h1
    · right; simpa using h1

theorem find_kcpps_files_snd (entries : List Entry) :
    (find_kcpps_files (some entries)).2 = globKcpps entries := by
  simp only [find_kcpps_files]
  split
  · next h => exact (List.isEmpty_iff.mp h).symm
  · rfl

theorem foldl_updateWithEntry_keys (files : List String)
    (acc : List (String × List (String × String)))
    (h : (acc.map Prod.fst ++ files.map fun f => "koboldcpp/" ++ extract_filename f).Nodup) :
    (files.foldl updateWithEntry acc).map Prod.fst
      = acc.map Prod.fst ++ files.map fun f => "koboldcpp/" ++ extract_filename f := by
  induction files generalizing acc with
  | nil => simp
  | cons f fs ih =>
      have hknA : ("koboldcpp/" ++ extract_filename f) ∉ acc.map Prod.fst := by
        rcases List.nodup_append.mp (by simpa using h) with ⟨-, -, hdisj⟩
        intro hmem
        exact hdisj hmem (by simp)
      have hupd : updateWithEntry acc f
          = acc ++ [("koboldcpp/" ++ extract_filename f,
                     (generate_config_entry (extract_filename f)).2)] := by
        unfold updateWithEntry
        exact dictUpdate_not_mem _ _ _ hknA
      have hnd2 : ((acc ++ [("koboldcpp/" ++ extract_filename f,
              (generate_config_entry (extract_filename f)).2)]).map Prod.fst
            ++ fs.map fun g => "koboldcpp/" ++ extract_filename g).Nodup := by
        simpa [List.append_assoc] using h
      rw [List.foldl_cons, hupd, ih _ hnd2]
      simp

theorem buildModels_length (kcpps_files : List String)
    (hnd : (kcpps_files.map extract_filename).Nodup) :
    (buildModels kcpps_files).length = kcpps_files.length := by
  have hinj : Function.Injective (fun s => "koboldcpp/" ++ s : String → String) := by
    intro a b hab
    exact string_append_left_cancel "koboldcpp/" a b hab
  have hkeys : (kcpps_files.map fun f => "koboldcpp/" ++ extract_filename f).Nodup := by
    have hm : (kcpps_files.map fun f => "koboldcpp/" ++ extract_filename f)
        = (kcpps_files.map extract_filename).map (fun s => "koboldcpp/" ++ s) := by
      simp [List.map_map, Function.comp]
    rw [hm]
    exact hnd.map hinj
  have hk := foldl_updateWithEntry_keys kcpps_files [] (by simpa using hkeys)
  have hlen := congrArg List.length hk
  simpa [buildModels] using hlen

theorem mem_buildModels (kcpps_files : List String) (x : String × List (String × String))
    (h : x ∈ buildModels kcpps_files) :
    ∃ f ∈ kcpps_files, x = generate_config_entry (extract_filename f) := by
  suffices hgen : ∀ (files : List String) (acc : List (String × List (String × String))),
      x ∈ files.foldl updateWithEntry acc →
      x ∈ acc ∨ ∃ f ∈ files, x = generate_config_entry (extract_filename f) by
    rcases hgen kcpps_files [] h with hacc | hf
    · simp at hacc
    · exact hf
  intro files
  induction files with
  | nil =>
      intro acc hx
      left
      simpa using hx
  | cons f fs ih =>
      intro acc hx
      rw [List.foldl_cons] at hx
      rcases ih _ hx with hacc | ⟨g, hg, hxg⟩
      · unfold updateWithEntry at hacc
        rcases mem_dictUpdate hacc with h1 | h1
        · left; exact h1
        · right
          refine ⟨f, by simp, ?_⟩
          rw [h1]
      · right
        exact ⟨g, by simp [hg], hxg⟩

/-! ### Concrete worlds used by witnesses and counterexamples -/

/-- Concrete world whose working directory lacks the `configs` folder. -/
def missingDirWorld : World :=
  { configs := none, kcppExtracted := false, output := none, writeOk := true,
    writeErr := "", llamaSwapPresent := true, spawnOk := true, spawnErr := "",
    isWindows := false, basepath := "/opt/kobold", interrupt := false }

/-- Concrete world whose `configs` directory exists but holds no matching
file, with a stale `config.yaml` already on disk. -/
def emptyConfigsWorld : World :=
  { configs := some [Entry.file "notes.txt"], kcppExtracted := true,
    output := some "stale", writeOk := true, writeErr := "",
    llamaSwapPresent := true, spawnOk := true, spawnErr := "",
    isWindows := false, basepath := "/opt/kobold", interrupt := false }

/-! ### Claim theorems -/

/-- C1 counterexample: invoked in a working directory that lacks the
configs folder, the process does not exit with status 0: `quit("")` raises
`SystemExit("")`, which CPython maps to exit status 1. -/
theorem missing_dir_exit_not_zero :
    missingDirWorld.configs = none ∧ (mainRun missingDirWorld).exitCode = 1 :=
  ⟨rfl, rfl⟩

/-- C1 (amended): when the program is invoked in a working directory that
lacks the configs folder, it creates that folder, reports the condition
and produces no output file — but the process exits with status 1 (via
`quit("")`), not status 0. -/
theorem missing_dir_recovery (w : World) (h : w.configs = none) :
    (mainRun w).world.configs = some []
    ∧ (mainRun w).world.output = w.output
    ∧ (mainRun w).exitCode = 1
    ∧ "Configs folder created, place your .kcpps files here.\n Make sure they are set to not show the launcher and don't launch a browser"
        ∈ (mainRun w).log := by
  simp [mainRun, h]

/-- Witness for the amended C1 at the concrete world `missingDirWorld`. -/
theorem missing_dir_recovery_witness :
    missingDirWorld.configs = none
    ∧ ((mainRun missingDirWorld).world.configs = some []
        ∧ (mainRun missingDirWorld).world.output = missingDirWorld.output
        ∧ (mainRun missingDirWorld).exitCode = 1
        ∧ "Configs folder created, place your .kcpps files here.\n Make sure they are set to not show the launcher and don't launch a browser"
            ∈ (mainRun missingDirWorld).log) :=
  ⟨rfl, missing_dir_recovery missingDirWorld rfl⟩

/-- C3: with exactly `a.kcpps` and `b.kcpps` in the configs folder, the
discovered list is `["a.kcpps", "b.kcpps"]` and the generated mapping is
exactly the two keys `koboldcpp/a` and `koboldcpp/b` in that order, each
entry holding precisely a `cmd` referencing `configs/a.kcpps` resp.
`configs/b.kcpps` and a `checkEndpoint` of `/ping`, and nothing else. -/
theorem end_to_end_example :
    find_kcpps_files (some [Entry.file "a.kcpps", Entry.file "b.kcpps"])
      = ([], ["a.kcpps", "b.kcpps"])
    ∧ buildModels ["a.kcpps", "b.kcpps"]
      = [("koboldcpp/a",
          [("cmd", "kcpp-extracted/koboldcpp-launcher --config configs/a.kcpps --port ${PORT} --hordemodelname a"),
           ("checkEndpoint", "/ping")]),
         ("koboldcpp/b",
          [("cmd", "kcpp-extracted/koboldcpp-launcher --config configs/b.kcpps --port ${PORT} --hordemodelname b"),
           ("checkEndpoint", "/ping")])] :=
  ⟨by decide, by decide⟩

/-- C5: running config synthesis twice in a row on the same discovered
file sequence (an unchanged input directory) is idempotent: the second run
returns the very same result, and the `config.yaml` bytes are a function
of the discovered sequence alone. -/
theorem regeneration_idempotent (kcpps_files : List String) (writeErr : String)
    (prev : Option String) (h : kcpps_files ≠ []) :
    generate_config_yaml kcpps_files true writeErr
        (generate_config_yaml kcpps_files true writeErr prev).output
      = generate_config_yaml kcpps_files true writeErr prev
    ∧ (generate_config_yaml kcpps_files true writeErr prev).output
      = some (yamlDump (buildModels kcpps_files)) := by
  have hne : kcpps_files.isEmpty = false := by
    rcases kcpps_files with _ | ⟨f, fs⟩
    · exact absurd rfl h
    · rfl
  constructor <;> simp [generate_config_yaml, hne]

/-- Witness for C5 at the concrete discovered list `["a.kcpps"]`. -/
theorem regeneration_idempotent_witness :
    (["a.kcpps"] : List String) ≠ []
    ∧ (generate_config_yaml ["a.kcpps"] true ""
          (generate_config_yaml ["a.kcpps"] true "" none).output
        = generate_config_yaml ["a.kcpps"] true "" none
      ∧ (generate_config_yaml ["a.kcpps"] true "" none).output
        = some (yamlDump (buildModels ["a.kcpps"]))) :=
  ⟨by decide, regeneration_idempotent ["a.kcpps"] "" none (by decide)⟩

/-- C6: when the configs directory exists but contains no matching
`.kcpps` file, the run reports the condition, exits with status 0, and
leaves the world — in particular any pre-existing `config.yaml` content —
completely untouched. -/
theorem no_input_success_no_write (w : World) (entries : List Entry)
    (hc : w.configs = some entries) (he : globKcpps entries = []) :
    (mainRun w).world = w
    ∧ (mainRun w).exitCode = 0
    ∧ (mainRun w).world.output = w.output
    ∧ "Warning: No .kcpps files found in 'configs'." ∈ (mainRun w).log
    ∧ "No .kcpps files found. Exiting." ∈ (mainRun w).log := by
  simp [mainRun, hc, find_kcpps_files, he]

/-- Witness for C6 at the concrete world `emptyConfigsWorld`. -/
theorem no_input_success_no_write_witness :
    emptyConfigsWorld.configs = some [Entry.file "notes.txt"]
    ∧ globKcpps [Entry.file "notes.txt"] = []
    ∧ ((mainRun emptyConfigsWorld).world = emptyConfigsWorld
        ∧ (mainRun emptyConfigsWorld).exitCode = 0
        ∧ (mainRun emptyConfigsWorld).world.output = emptyConfigsWorld.output
        ∧ "Warning: No .kcpps files found in 'configs'." ∈ (mainRun emptyConfigsWorld).log
        ∧ "No .kcpps files found. Exiting." ∈ (mainRun emptyConfigsWorld).log) :=
  ⟨rfl, by decide,
    no_input_success_no_write emptyConfigsWorld [Entry.file "notes.txt"] rfl (by decide)⟩

/-- C10: `generate_config_yaml` is total at its interface: it returns a
boolean for every input; a failing write (modelled by `writeOk = false`,
the caught `except Exception` branch) is mapped to `False` with the file
keeping its previous content; the empty input also yields `False` without
the file being opened; and the single `False` value conflates the
no-input case with the write-failure case. -/
theorem generate_config_yaml_total (kcpps_files : List String) (writeOk : Bool)
    (writeErr : String) (prev : Option String) :
    (generate_config_yaml [] writeOk writeErr prev).success = false
    ∧ (generate_config_yaml [] writeOk writeErr prev).output = prev
    ∧ (generate_config_yaml kcpps_files false writeErr prev).success = false
    ∧ ((generate_config_yaml kcpps_files writeOk writeErr prev).success = true
        ↔ kcpps_files ≠ [] ∧ writeOk = true)
    ∧ (generate_config_yaml [] writeOk writeErr prev).success
        = (generate_config_yaml kcpps_files false writeErr prev).success := by
  rcases kcpps_files with _ | ⟨f, fs⟩ <;> cases writeOk <;>
    simp [generate_config_yaml]

/-- Witness for C10 at the concrete input `["a.kcpps"]` with a failing
and a succeeding write. -/
theorem generate_config_yaml_total_witness :
    (generate_config_yaml [] true "boom" (some "old")).success = false
    ∧ (generate_config_yaml [] true "boom" (some "old")).output = some "old"
    ∧ (generate_config_yaml ["a.kcpps"] false "boom" (some "old")).success = false
    ∧ ((generate_config_yaml ["a.kcpps"] true "boom" (some "old")).success = true
        ↔ (["a.kcpps"] : List String) ≠ [] ∧ true = true)
    ∧ (generate_config_yaml [] true "boom" (some "old")).success
        = (generate_config_yaml ["a.kcpps"] false "boom" (some "old")).success :=
  generate_config_yaml_total ["a.kcpps"] true "boom" (some "old")

/-- C2 counterexample: discovery can return two distinct files carrying
the same identifier (stem): a configs directory holding the files
`.kcpps` and `.kcpps.kcpps` — both matched by `glob("*.kcpps")`, both with
stem `.kcpps` — yields a list of two discovered identifiers whose
synthesized mapping has a single entry, the second `dict.update`
silently overwriting the first. -/
theorem duplicate_identifiers_collapse :
    (find_kcpps_files (some [Entry.file ".kcpps", Entry.file ".kcpps.kcpps"])).2
      = [".kcpps", ".kcpps.kcpps"]
    ∧ ([".kcpps", ".kcpps.kcpps"] : List String).map extract_filename = [".kcpps", ".kcpps"]
    ∧ (buildModels [".kcpps", ".kcpps.kcpps"]).length = 1 :=
  ⟨by decide, by decide, by decide⟩

/-- C2 (amended): for a discovered list of N files whose identifiers
(stems) are pairwise distinct, the synthesized mapping contains exactly N
entries; every entry of the mapping is the generated entry of one
discovered file; and each generated command string embeds the identifier
at exactly the two template slots — the `--config` path and the
`--hordemodelname` value — with the literal, unexpanded `${PORT}`
placeholder between them. -/
theorem mapping_shape (kcpps_files : List String)
    (hnd : (kcpps_files.map extract_filename).Nodup) :
    (buildModels kcpps_files).length = kcpps_files.length
    ∧ (∀ p ∈ buildModels kcpps_files, ∃ f ∈ kcpps_files,
        p = generate_config_entry (extract_filename f))
    ∧ (∀ filename : String, generate_config_entry filename
        = ("koboldcpp/" ++ filename,
           [("cmd",
             "kcpp-extracted/koboldcpp-launcher --config configs/" ++ filename
               ++ (".kcpps --port " ++ "${PORT}" ++ " --hordemodelname ") ++ filename),
            ("checkEndpoint", "/ping")])) := by
  refine ⟨buildModels_length kcpps_files hnd,
    fun p hp => mem_buildModels kcpps_files p hp, ?_⟩
  intro filename
  have hm : (".kcpps --port ${PORT} --hordemodelname " : String)
      = ".kcpps --port " ++ "${PORT}" ++ " --hordemodelname " := by decide
  simp [generate_config_entry, hm]

/-- Witness for the amended C2 at the discovered list `["a.kcpps", "b.kcpps"]`. -/
theorem mapping_shape_witness :
    ((["a.kcpps", "b.kcpps"] : List String).map extract_filename).Nodup
    ∧ ((buildModels ["a.kcpps", "b.kcpps"]).length
          = (["a.kcpps", "b.kcpps"] : List String).length
      ∧ (∀ p ∈ buildModels ["a.kcpps", "b.kcpps"],
          ∃ f ∈ (["a.kcpps", "b.kcpps"] : List String),
            p = generate_config_entry (extract_filename f))
      ∧ (∀ filename : String, generate_config_entry filename
          = ("koboldcpp/" ++ filename,
             [("cmd",
               "kcpp-extracted/koboldcpp-launcher --config configs/" ++ filename
                 ++ (".kcpps --port " ++ "${PORT}" ++ " --hordemodelname ") ++ filename),
              ("checkEndpoint", "/ping")]))) :=
  ⟨by decide, mapping_shape ["a.kcpps", "b.kcpps"] (by decide)⟩

/-- C4: discovery over a directory of N matching and M non-matching files
returns exactly the N matching names, in enumeration order, each the name
of one matching file and none derived from a non-matching file; and the
result depends only on the top-level entry names, so no recursion into
subdirectories occurs. -/
theorem discovery_complete (entries : List Entry)
    (hfiles : ∀ e ∈ entries, e.isFile = true) :
    ((find_kcpps_files (some entries)).2).length
        = (entries.filter fun e => matchesKcpps e.name).length
    ∧ (∀ nm ∈ (find_kcpps_files (some entries)).2,
        ∃ e ∈ entries, e.isFile = true ∧ e.name = nm ∧ matchesKcpps nm = true)
    ∧ (∀ entries₂ : List Entry,
        entries₂.map Entry.name = entries.map Entry.name →
        (find_kcpps_files (some entries₂)).2 = (find_kcpps_files (some entries)).2) := by
  refine ⟨?_, ?_, ?_⟩
  · rw [find_kcpps_files_snd]
    unfold globKcpps
    rw [filter_map_eq]
    simp
  · intro nm hnm
    rw [find_kcpps_files_snd] at hnm
    unfold globKcpps at hnm
    rw [filter_map_eq] at hnm
    rcases List.mem_map.mp hnm with ⟨e, he, hname⟩
    have hef := List.mem_filter.mp he
    exact ⟨e, hef.1, hfiles e hef.1, hname, by rw [← hname]; exact hef.2⟩
  · intro entries₂ hmap
    rw [find_kcpps_files_snd, find_kcpps_files_snd]
    unfold globKcpps
    rw [hmap]

/-- Witness for C4 at a directory with one matching and one non-matching
file. -/
theorem discovery_complete_witness :
    (∀ e ∈ [Entry.file "a.kcpps", Entry.file "b.txt"], e.isFile = true)
    ∧ (((find_kcpps_files (some [Entry.file "a.kcpps", Entry.file "b.txt"])).2).length
          = ([Entry.file "a.kcpps", Entry.file "b.txt"].filter
              fun e => matchesKcpps e.name).length
      ∧ (∀ nm ∈ (find_kcpps_files (some [Entry.file "a.kcpps", Entry.file "b.txt"])).2,
          ∃ e ∈ [Entry.file "a.kcpps", Entry.file "b.txt"],
            e.isFile = true ∧ e.name = nm ∧ matchesKcpps nm = true)
      ∧ (∀ entries₂ : List Entry,
          entries₂.map Entry.name
              = [Entry.file "a.kcpps", Entry.file "b.txt"].map Entry.name →
          (find_kcpps_files (some entries₂)).2
              = (find_kcpps_files (some [Entry.file "a.kcpps", Entry.file "b.txt"])).2)) :=
  ⟨by decide, discovery_complete [Entry.file "a.kcpps", Entry.file "b.txt"] (by decide)⟩

/-- Concrete world whose configs directory holds one matching file but
where writing `config.yaml` fails. -/
def writeFailWorld : World :=
  { configs := some [Entry.file "a.kcpps"], kcppExtracted := true,
    output := some "old", writeOk := false, writeErr := "disk full",
    llamaSwapPresent := true, spawnOk := true, spawnErr := "",
    isWindows := false, basepath := "/opt/kobold", interrupt := false }

/-- C7 counterexample: write failure is not the only error-taxonomy
condition that changes the process exit code: the missing-configs-folder
early return also ends the process with a nonzero status (1, via
`quit("")`), although writing is never attempted there. -/
theorem write_failure_not_only_nonzero :
    missingDirWorld.writeOk = true ∧ (mainRun missingDirWorld).exitCode ≠ 0 :=
  ⟨rfl, by decide⟩

/-- C7 (amended): when writing the output file fails, the failure is
reported together with the underlying cause, `generate_config_yaml`
returns `False`, and the process exits with the failure status 1 via
`sys.exit(1)`; write failure is however not the only error-taxonomy
condition changing the exit code, since the missing-configs-folder early
return exits with status 1 as well. -/
theorem write_failure_reported (w : World) (entries : List Entry)
    (hc : w.configs = some entries) (hne : (globKcpps entries).isEmpty = false)
    (hw : w.writeOk = false) :
    (generate_config_yaml (globKcpps entries) w.writeOk w.writeErr w.output).success = false
    ∧ (mainRun w).exitCode = 1
    ∧ ("Error writing config.yaml: " ++ w.writeErr) ∈ (mainRun w).log
    ∧ "Config generation failed." ∈ (mainRun w).log
    ∧ (∀ w' : World, w'.configs = none → (mainRun w').exitCode = 1) := by
  refine ⟨?_, ?_, ?_, ?_, ?_⟩
  · simp [generate_config_yaml, hne, hw]
  · simp [mainRun, hc, find_kcpps_files, hne, generate_config_yaml, hw]
  · simp [mainRun, hc, find_kcpps_files, hne, generate_config_yaml, hw]
  · simp [mainRun, hc, find_kcpps_files, hne, generate_config_yaml, hw]
  · intro w' h'
    simp [mainRun, h']

/-- Witness for the amended C7 at the concrete world `writeFailWorld`. -/
theorem write_failure_reported_witness :
    writeFailWorld.configs = some [Entry.file "a.kcpps"]
    ∧ (globKcpps [Entry.file "a.kcpps"]).isEmpty = false
    ∧ writeFailWorld.writeOk = false
    ∧ ((generate_config_yaml (globKcpps [Entry.file "a.kcpps"])
          writeFailWorld.writeOk writeFailWorld.writeErr writeFailWorld.output).success = false
      ∧ (mainRun writeFailWorld).exitCode = 1
      ∧ ("Error writing config.yaml: " ++ writeFailWorld.writeErr) ∈ (mainRun writeFailWorld).log
      ∧ "Config generation failed." ∈ (mainRun writeFailWorld).log
      ∧ (∀ w' : World, w'.configs = none → (mainRun w').exitCode = 1)) :=
  ⟨rfl, by decide, rfl,
    write_failure_reported writeFailWorld [Entry.file "a.kcpps"] rfl (by decide) rfl⟩

/-- Concrete world with one matching config and no adjacent `llama-swap`
executable. -/
def noProxyWorld : World :=
  { configs := some [Entry.file "a.kcpps"], kcppExtracted := true,
    output := none, writeOk := true, writeErr := "",
    llamaSwapPresent := false, spawnOk := true, spawnErr := "",
    isWindows := false, basepath := "/opt/kobold", interrupt := false }

/-- C8: the supervisor probes for the proxy adjacent to the program's own
location, suffixed `.exe` exactly on Windows and unsuffixed elsewhere;
when the executable is absent the launch is skipped with a warning as a
non-fatal outcome: the run completes with exit status 0, the config file
having still been produced, and no child is ever spawned. -/
theorem missing_proxy_nonfatal (w : World) (entries : List Entry)
    (hc : w.configs = some entries) (hne : (globKcpps entries).isEmpty = false)
    (hw : w.writeOk = true) (hl : w.llamaSwapPresent = false) :
    (∀ (win : Bool) (bp : String), llamaSwapExecutable win bp
        = osJoin win bp ("llama-swap" ++ if win then ".exe" else ""))
    ∧ (launch_llama_swap w.isWindows w.basepath w.llamaSwapPresent w.spawnOk w.spawnErr).1
        = none
    ∧ ("Warning: " ++ llamaSwapExecutable w.isWindows w.basepath
        ++ " not found. Skipping llama-swap launch.") ∈ (mainRun w).log
    ∧ (mainRun w).exitCode = 0
    ∧ (mainRun w).world.output = some (yamlDump (buildModels (globKcpps entries)))
    ∧ Event.launched ∉ (mainRun w).events := by
  have hs0 : ("llama-swap" ++ "" : String) = "llama-swap" := by decide
  have hs1 : ("llama-swap" ++ ".exe" : String) = "llama-swap.exe" := by decide
  have hexe : ∀ (win : Bool) (bp : String), llamaSwapExecutable win bp
      = osJoin win bp ("llama-swap" ++ if win then ".exe" else "") := by
    intro win bp
    cases win <;> simp [llamaSwapExecutable, osJoin, hs0, hs1]
  refine ⟨hexe, ?_, ?_, ?_, ?_, ?_⟩ <;>
    by_cases hke : w.kcppExtracted = true <;>
      simp [mainRun, hc, find_kcpps_files, hne, generate_config_yaml, hw,
        launch_llama_swap, hl, hke]

/-- Witness for C8 at the concrete world `noProxyWorld`. -/
theorem missing_proxy_nonfatal_witness :
    noProxyWorld.configs = some [Entry.file "a.kcpps"]
    ∧ (globKcpps [Entry.file "a.kcpps"]).isEmpty = false
    ∧ noProxyWorld.writeOk = true
    ∧ noProxyWorld.llamaSwapPresent = false
    ∧ ((∀ (win : Bool) (bp : String), llamaSwapExecutable win bp
          = osJoin win bp ("llama-swap" ++ if win then ".exe" else ""))
      ∧ (launch_llama_swap noProxyWorld.isWindows noProxyWorld.basepath
            noProxyWorld.llamaSwapPresent noProxyWorld.spawnOk noProxyWorld.spawnErr).1
          = none
      ∧ ("Warning: " ++ llamaSwapExecutable noProxyWorld.isWindows noProxyWorld.basepath
          ++ " not found. Skipping llama-swap launch.") ∈ (mainRun noProxyWorld).log
      ∧ (mainRun noProxyWorld).exitCode = 0
      ∧ (mainRun noProxyWorld).world.output
          = some (yamlDump (buildModels (globKcpps [Entry.file "a.kcpps"])))
      ∧ Event.launched ∉ (mainRun noProxyWorld).events) :=
  ⟨rfl, by decide, rfl, rfl,
    missing_proxy_nonfatal noProxyWorld [Entry.file "a.kcpps"] rfl (by decide) rfl rfl⟩

/-- Concrete world where the proxy is launched and the user interrupts the
blocking wait. -/
def interruptWorld : World :=
  { configs := some [Entry.file "a.kcpps"], kcppExtracted := true,
    output := none, writeOk := true, writeErr := "",
    llamaSwapPresent := true, spawnOk := true, spawnErr := "",
    isWindows := false, basepath := "/opt/kobold", interrupt := true }

/-- C9: when an interrupt is received while the supervisor is blocked on
the running child's `wait()`, the event is reported, a graceful
termination request is sent to the child, and the supervisor returns only
after a further completed wait — that is, only once the child has actually
exited: the run's event trace ends with `terminateSent`, `childExited`,
`returned`, in that order. -/
theorem graceful_shutdown (w : World) (entries : List Entry)
    (hc : w.configs = some entries) (hne : (globKcpps entries).isEmpty = false)
    (hw : w.writeOk = true) (hl : w.llamaSwapPresent = true) (hs : w.spawnOk = true)
    (hi : w.interrupt = true) :
    "\nShutting down llama-swap..." ∈ (mainRun w).log
    ∧ ∃ pre, (mainRun w).events
        = pre ++ [Event.terminateSent, Event.childExited, Event.returned] := by
  constructor
  · by_cases hke : w.kcppExtracted = true <;>
      simp [mainRun, hc, find_kcpps_files, hne, generate_config_yaml, hw,
        launch_llama_swap, hl, hs, supervise, hi, hke]
  · by_cases hke : w.kcppExtracted = true
    · exact ⟨[Event.launched], by
        simp [mainRun, hc, find_kcpps_files, hne, generate_config_yaml, hw,
          launch_llama_swap, hl, hs, supervise, hi, hke]⟩
    · exact ⟨[Event.unpackRun, Event.launched], by
        simp [mainRun, hc, find_kcpps_files, hne, generate_config_yaml, hw,
          launch_llama_swap, hl, hs, supervise, hi, hke]⟩

/-- Witness for C9 at the concrete world `interruptWorld`. -/
theorem graceful_shutdown_witness :
    interruptWorld.configs = some [Entry.file "a.kcpps"]
    ∧ (globKcpps [Entry.file "a.kcpps"]).isEmpty = false
    ∧ interruptWorld.writeOk = true
    ∧ interruptWorld.llamaSwapPresent = true
    ∧ interruptWorld.spawnOk = true
    ∧ interruptWorld.interrupt = true
    ∧ ("\nShutting down llama-swap..." ∈ (mainRun interruptWorld).log
      ∧ ∃ pre, (mainRun interruptWorld).events
          = pre ++ [Event.terminateSent, Event.childExited, Event.returned]) :=
  ⟨rfl, by decide, rfl, rfl, rfl, rfl,
    graceful_shutdown interruptWorld [Entry.file "a.kcpps"] rfl (by decide) rfl rfl rfl rfl⟩

end KoboldSwap
